import Mathlib

/-!
Shallow embedding of `runway_selector.py` and verification of its
specification claims.

Modelling conventions:
* Python floats and `math.cos` / `math.sin` are modelled over `ℝ`.
* Python `None` results and Python exceptions (`IndexError` on `runway_data[0]`,
  `ValueError` on `min([])`, `int()` on non-numeric text, `math.radians('VRB')`)
  are modelled by `Option`, with `none` marking a raised exception where the
  source would crash.
* The blocking `input()` loop of `get_engm_config` is modelled by a parameter
  `choice : Fin 6` holding the operator's first valid menu answer
  (`"1"`..`"6"` become `0`..`5`).
* A `.rwy` store file is a list of its lines (newline terminators implicit).
-/

namespace RunwaySelector

/-- `class Runway` of the source: two designators, their headings, the airport. -/
structure Runway where
  rwy1 : String
  rwy2 : String
  hdg1 : Int
  hdg2 : Int
  airport : String
  deriving DecidableEq

/-- Wind direction of a parsed METAR: the literal `'VRB'` or an integer. -/
inductive WindDir where
  | vrb : WindDir
  | deg : Int → WindDir
  deriving DecidableEq

/-- The dictionary returned by `parse_metar`. -/
structure WindData where
  direction : WindDir
  speed : Int
  raw_metar : String
  deriving DecidableEq

/-- The value `select_runway` returns in its first component: a single
designator (possibly Python `None`) or, for ENGM, a list of designators. -/
inductive Selection where
  | single : Option String → Selection
  | multiple : List String → Selection
  deriving DecidableEq

/-! ### String helpers mirroring Python built-ins -/

/-- Python substring scan used by `sub in s`: needle as char list, hay as char list. -/
def subLF (n : List Char) : List Char → Bool
  | [] => n.isEmpty
  | c :: t => n.isPrefixOf (c :: t) || subLF n t

/-- Python `needle in hay` on strings. -/
def containsSub (needle hay : String) : Bool :=
  subLF needle.data hay.data

/-- Python `s.startswith(pre)`. -/
def pyStartsWith (s pre : String) : Bool :=
  pre.data.isPrefixOf s.data

/-- Python `s.rstrip('LRC')`: drop trailing characters drawn from `{L,R,C}`. -/
def rstripLRC (s : String) : String :=
  String.mk (s.data.reverse.dropWhile (fun c => c == 'L' || c == 'R' || c == 'C')).reverse

/-- Decimal value of a non-empty all-digit character list. -/
def digitsToNat? (cs : List Char) : Option Nat :=
  if !cs.isEmpty && cs.all Char.isDigit then
    some (cs.foldl (fun n c => 10 * n + (c.toNat - 48)) 0)
  else none

/-- Python `int(s)` on the decimal strings this program feeds it (an optional
sign and digits); `none` models the `ValueError` raised on other text. -/
def pyInt? (s : String) : Option Int :=
  match s.data with
  | '-' :: cs => (digitsToNat? cs).map (fun n => -(n : Int))
  | cs => (digitsToNat? cs).map (fun n => (n : Int))

/-- Python `min` over a list of ints; `none` models the `ValueError` on `min([])`. -/
def minList : List Int → Option Int
  | [] => none
  | h :: t => some (t.foldl min h)

/-- Python `str(x)` for the optional designator carried in a Selection. -/
def pyStrOpt (o : Option String) : String :=
  match o with
  | none => "None"
  | some s => s

/-- Python `str(runway_list)` (the repr written when a list reaches an f-string). -/
def pyStrOfList (rs : List String) : String :=
  "[" ++ String.intercalate ", " (rs.map (fun r => "\x27" ++ r ++ "\x27")) ++ "]"

/-! ### parse_metar -/

/-- Numeric value of a digit character. -/
def digitVal (c : Char) : Nat := c.toNat - 48

/-- Three digits followed by `KT` at the head (the greedy branch of `(\d{2,3})KT`). -/
def try3KT : List Char → Option Nat
  | a :: b :: c :: 'K' :: 'T' :: _ =>
    if a.isDigit && b.isDigit && c.isDigit then
      some (100 * digitVal a + 10 * digitVal b + digitVal c)
    else none
  | _ => none

/-- Two digits followed by `KT` at the head (the backtracked branch). -/
def try2KT : List Char → Option Nat
  | a :: b :: 'K' :: 'T' :: _ =>
    if a.isDigit && b.isDigit then some (10 * digitVal a + digitVal b) else none
  | _ => none

/-- `(\d{2,3})KT` at the head of the text: greedy three digits, then two. -/
def speedKT (cs : List Char) : Option Nat :=
  match try3KT cs with
  | some n => some n
  | none => try2KT cs

/-- A match of the wind group `(VRB|(\d{3}))(\d{2,3})KT`. -/
inductive WindGroup where
  | vrb : Nat → WindGroup
  | dir : Nat → Nat → WindGroup
  deriving DecidableEq

/-- The `VRB(\d{2,3})KT` alternative at the head of the text. -/
def vrbAt : List Char → Option WindGroup
  | 'V' :: 'R' :: 'B' :: rest => (speedKT rest).map WindGroup.vrb
  | _ => none

/-- The `(\d{3})(\d{2,3})KT` alternative at the head of the text. -/
def dirAt : List Char → Option WindGroup
  | a :: b :: c :: rest =>
    if a.isDigit && b.isDigit && c.isDigit then
      (speedKT rest).map (WindGroup.dir (100 * digitVal a + 10 * digitVal b + digitVal c))
    else none
  | _ => none

/-- The full wind-group pattern anchored at the head: `VRB` alternative first,
as regex alternation tries the branches in order. -/
def windAt (cs : List Char) : Option WindGroup :=
  match vrbAt cs with
  | some g => some g
  | none => dirAt cs

/-- `re.search`: try the pattern at each position from the left. -/
def searchWind : List Char → Option WindGroup
  | [] => none
  | c :: rest =>
    match windAt (c :: rest) with
    | some g => some g
    | none => searchWind rest

/-- Build the result dictionary of `parse_metar` from a matched group. -/
def windDataOfGroup (g : WindGroup) (raw : String) : WindData :=
  match g with
  | .vrb sp => ⟨.vrb, (sp : Int), raw⟩
  | .dir d sp => ⟨.deg (d : Int), (sp : Int), raw⟩

/-- `parse_metar`: `None` for empty input, else the leftmost wind-group match. -/
def parse_metar (metar : String) : Option WindData :=
  if metar.data.isEmpty then none
  else (searchWind metar.data).map (fun g => windDataOfGroup g metar)

/-! ### Static tables -/

/-- `PREFERRED_RUNWAYS` dictionary, in source order. -/
def PREFERRED_RUNWAYS : List (String × String) :=
  [("ENBR", "17"), ("ENTO", "18"), ("ENRY", "30"), ("ENZV", "18"), ("ENHD", "13"),
   ("ENAL", "24"), ("ENML", "07"), ("ENKB", "07"), ("ENVA", "09"), ("ENBO", "07"),
   ("ENTC", "18"), ("ENCN", "21"), ("ENRO", "31"), ("ENSG", "24"), ("ENFL", "07"),
   ("ENEV", "17"), ("ENDU", "28"), ("ENAT", "11"), ("ENNA", "34"), ("ENKR", "24"),
   ("ENSB", "09"), ("ENNO", "12"), ("ENSD", "26"), ("ENSO", "14"), ("ENMS", "33"),
   ("ENBN", "03"), ("ENST", "20"), ("ENRA", "31"), ("ENLK", "02"), ("ENSH", "36"),
   ("ENAN", "14"), ("ENOL", "15")]

/-- Dictionary lookup `airport in PREFERRED_RUNWAYS` / `PREFERRED_RUNWAYS[airport]`. -/
def preferredRunway (airport : String) : Option String :=
  (PREFERRED_RUNWAYS.find? (fun p => p.1 == airport)).map (fun p => p.2)

/-- `IGNORED_AIRPORTS` set. -/
def IGNORED_AIRPORTS : List String :=
  ["ENRE", "ENGK", "ENLI", "ENKJ", "ENHA", "ENEG", "ENJA", "ENBM", "ENAX"]

/-- `get_engm_config`, with the operator's first valid menu answer as a
parameter: answers `"1"`..`"6"` are `0`..`5`. -/
def get_engm_config (choice : Fin 6) : List String × String :=
  match choice.val with
  | 0 => (["19L", "19R"], "MPO")
  | 1 => (["01L", "01R"], "MPO")
  | 2 => (["19L", "19R"], "SPO")
  | 3 => (["01L", "01R"], "SPO")
  | 4 => (["19R"], "SRO")
  | _ => (["01L"], "SRO")

/-! ### Wind components -/

/-- `math.radians`. -/
noncomputable def radians (x : ℝ) : ℝ := x * (Real.pi / 180)

/-- `calculate_wind_components`: signed headwind and absolute crosswind. -/
noncomputable def calculate_wind_components (runway_hdg wind_dir wind_speed : Int) : ℝ × ℝ :=
  let runway_rad := radians (runway_hdg : ℝ)
  let wind_rad := radians (wind_dir : ℝ)
  let headwind := (wind_speed : ℝ) * Real.cos (wind_rad - runway_rad)
  let crosswind := (wind_speed : ℝ) * Real.sin (wind_rad - runway_rad)
  (headwind, |crosswind|)

/-! ### select_runway_enzv (defined in the source, analysed in claim C3) -/

/-- `select_runway_enzv`; `none` models the crash `math.radians('VRB')` would
raise if it were ever called with variable wind. -/
noncomputable def select_runway_enzv (wind_data : Option WindData) : Option String :=
  match wind_data with
  | none => some "18"
  | some wd =>
    match wd.direction with
    | .vrb => none
    | .deg d =>
      let p18 := calculate_wind_components 177 d wd.speed
      let p36 := calculate_wind_components 357 d wd.speed
      let p10 := calculate_wind_components 100 d wd.speed
      let p28 := calculate_wind_components 280 d wd.speed
      let best_18_36 := if p36.1 < p18.1 then "18" else "36"
      let best_18_36_xw := if best_18_36 = "18" then p18.2 else p36.2
      if 15 < best_18_36_xw then
        if p28.1 < p10.1 then some "10" else some "28"
      else some best_18_36

/-! ### select_runway: directional loop -/

/-- `hw > best_headwind` where `best_headwind` starts as `float('-inf')`:
`none` stands for the initial `-inf`, which every real headwind beats. -/
def beats (best : Option (String × ℝ)) (hw : ℝ) : Prop :=
  match best with
  | none => True
  | some p => p.2 < hw

noncomputable instance beatsDec (best : Option (String × ℝ)) (hw : ℝ) :
    Decidable (beats best hw) :=
  match best with
  | none => isTrue trivial
  | some p => inferInstanceAs (Decidable (p.2 < hw))

/-- One iteration of the main loop of `select_runway` over a runway:
skip if both crosswinds exceed 25, otherwise consider only the
better-headwind heading, updating on strictly greater headwind with
crosswind within the limit.  State is `(designator, headwind)`. -/
noncomputable def directional_step (d s : Int) (best : Option (String × ℝ)) (r : Runway) :
    Option (String × ℝ) :=
  let hw1 := (calculate_wind_components r.hdg1 d s).1
  let xw1 := (calculate_wind_components r.hdg1 d s).2
  let hw2 := (calculate_wind_components r.hdg2 d s).1
  let xw2 := (calculate_wind_components r.hdg2 d s).2
  if 25 < min xw1 xw2 then best
  else if hw2 < hw1 then
    (if beats best hw1 ∧ xw1 ≤ 25 then some (r.rwy1, hw1) else best)
  else
    (if beats best hw2 ∧ xw2 ≤ 25 then some (r.rwy2, hw2) else best)

/-- `xw < min_crosswind` where `min_crosswind` starts as `float('inf')`:
`none` stands for the initial `inf`. -/
def ltMin (acc : Option (String × ℝ)) (xw : ℝ) : Prop :=
  match acc with
  | none => True
  | some p => xw < p.2

noncomputable instance ltMinDec (acc : Option (String × ℝ)) (xw : ℝ) :
    Decidable (ltMin acc xw) :=
  match acc with
  | none => isTrue trivial
  | some p => inferInstanceAs (Decidable (xw < p.2))

/-- One comparison of the fallback loop: keep `(designator, crosswind)` of the
strictly smallest crosswind seen so far. -/
noncomputable def fallback_upd (acc : Option (String × ℝ)) (p : String × ℝ) :
    Option (String × ℝ) :=
  if ltMin acc p.2 then some p else acc

/-- One iteration of the fallback loop of `select_runway` over a runway:
first heading checked, then the second against the possibly updated minimum. -/
noncomputable def fallback_step (d s : Int) (acc : Option (String × ℝ)) (r : Runway) :
    Option (String × ℝ) :=
  fallback_upd (fallback_upd acc (r.rwy1, (calculate_wind_components r.hdg1 d s).2))
    (r.rwy2, (calculate_wind_components r.hdg2 d s).2)

/-- The fallback branch (`if not best_runway`): minimum-crosswind heading,
`should_print = True`. -/
noncomputable def fallbackResult (rd : List Runway) (d s : Int) : Option String × Bool :=
  match rd.foldl (fallback_step d s) none with
  | some p => (some p.1, true)
  | none => (none, true)

/-- The directional part of `select_runway` (designator, `should_print`);
an empty-string designator is falsy in Python, hence routed to the fallback. -/
noncomputable def select_directional (rd : List Runway) (d s : Int) : Option String × Bool :=
  match rd.foldl (directional_step d s) none with
  | some p => if p.1 = "" then fallbackResult rd d s else (some p.1, false)
  | none => fallbackResult rd d s

/-! ### select_runway: variable-wind branch -/

/-- One iteration of the designator-matching loop of the variable-wind branch
(`if ... == lowest: selected = rwy1 elif ... == lowest: selected = rwy2`, no break). -/
def pickStep (lowest : Int) (acc : Option String) (r : Runway) : Option String :=
  if pyInt? (rstripLRC r.rwy1) == some lowest then some r.rwy1
  else if pyInt? (rstripLRC r.rwy2) == some lowest then some r.rwy2
  else acc

/-- The designator-matching loop of the variable-wind branch. -/
def vrbPick (rd : List Runway) (lowest : Int) : Option String :=
  rd.foldl (pickStep lowest) none

/-- `wind_data.get('direction') == 'VRB'`. -/
def isVrb : WindDir → Bool
  | .vrb => true
  | .deg _ => false

/-- The list comprehension
`[min(int(r.rwy1.rstrip('LRC')), int(r.rwy2.rstrip('LRC'))) for r in runway_data]`,
evaluated left to right; `none` models the `ValueError` on the first
non-numeric designator. -/
def mapMinVals : List Runway → Option (List Int)
  | [] => some []
  | r :: t => do
    let a ← pyInt? (rstripLRC r.rwy1)
    let b ← pyInt? (rstripLRC r.rwy2)
    let rest ← mapMinVals t
    pure (min a b :: rest)

/-! ### select_runway -/

/-- `select_runway`.  Result `none` models a raised exception
(`IndexError` on `runway_data[0]` with an empty catalog, `ValueError` from
`min([])` or from `int()` on a non-numeric designator). -/
noncomputable def select_runway (airport : String) (runway_data : List Runway)
    (wind_data : Option WindData) (choice : Fin 6) :
    Option (Selection × String × Bool) :=
  match wind_data with
  | none =>
    match preferredRunway airport with
    | some p =>
      some (.single (some p), "No wind data available - using preferred runway " ++ p, true)
    | none =>
      match runway_data with
      | [] => none
      | r :: _ =>
        some (.single (some r.rwy1),
          "No wind data available - defaulting to runway " ++ r.rwy1, true)
  | some wd =>
    if airport == "ENGM" && (isVrb wd.direction || containsSub "FZFG" wd.raw_metar) then
      let cfg := get_engm_config choice
      some (.multiple cfg.1,
        "Using " ++ cfg.2 ++ " mode with runways " ++ String.intercalate ", " cfg.1, true)
    else
      match wd.direction with
      | .vrb =>
        match preferredRunway airport with
        | some p =>
          some (.single (some p),
            "Wind is " ++ wd.raw_metar ++ ", using preferred runway " ++ p, true)
        | none =>
          match mapMinVals runway_data with
          | none => none
          | some vals =>
            match minList vals with
            | none => none
            | some lowest =>
              match vrbPick runway_data lowest with
              | none => none
              | some sel =>
                some (.single (some sel),
                  "Wind is " ++ wd.raw_metar ++ ", no preferred runway - using runway " ++ sel,
                  true)
      | .deg d =>
        let res := select_directional runway_data d wd.speed
        some (.single res.1,
          "Selected runway " ++ pyStrOpt res.1 ++ " based on wind " ++ toString d ++ "@" ++
            toString wd.speed ++ "KT",
          res.2)

/-! ### Store files -/

/-- `update_rwy_file`: drop records keyed to the airport, append the two new ones. -/
def update_rwy_file (lines : List String) (airport runway : String) : List String :=
  (lines.filter (fun l => ! pyStartsWith l ("ACTIVE_RUNWAY:" ++ airport ++ ":")))
    ++ ["ACTIVE_RUNWAY:" ++ airport ++ ":" ++ runway ++ ":1",
        "ACTIVE_RUNWAY:" ++ airport ++ ":" ++ runway ++ ":0"]

/-- Index of the last line satisfying `p` (the source loop keeps overwriting). -/
def lastIdxWhere (p : String → Bool) (lines : List String) : Option Nat :=
  (List.range lines.length).foldl
    (fun acc i => if p (lines.getD i "") then some i else acc) none

/-- `update_engm_runways`: rewrite the `ENGM_ARR` / `ENGM_DEP` lines in place;
the file is left untouched when either line is missing. -/
def update_engm_runways (lines : List String) (runways : List String) (mode : String) :
    List String :=
  let arr_line_idx := lastIdxWhere (fun l => pyStartsWith l "ENGM_ARR") lines
  let dep_line_idx := lastIdxWhere (fun l => pyStartsWith l "ENGM_DEP") lines
  match arr_line_idx, dep_line_idx with
  | some ai, some di =>
    if mode == "SPO" then
      if containsSub "19" (runways.headD "") then
        (lines.set ai "ENGM_ARR:19R").set di "ENGM_DEP:19L"
      else
        (lines.set ai "ENGM_ARR:01R").set di "ENGM_DEP:01L"
    else if mode == "MPO" then
      (lines.set ai ("ENGM_ARR:" ++ runways.headD "" ++ "," ++ runways.getD 1 "")).set di
        ("ENGM_DEP:" ++ runways.headD "" ++ "," ++ runways.getD 1 "")
    else
      (lines.set ai ("ENGM_ARR:" ++ runways.headD "")).set di
        ("ENGM_DEP:" ++ runways.headD "")
  | _, _ => lines

/-! ### main: per-airport step -/

/-- The mode recovery in `main`: searches the human-readable message. -/
def mode_of_message (message : String) : String :=
  if containsSub "Segregated" message then "SPO"
  else if containsSub "MPO" message then "MPO"
  else "SRO"

/-- The body of `main`'s per-airport loop: with no observation the airport is
only reported on the console (no store is touched); otherwise the policy runs
and its result is committed to every `.rwy` file. -/
noncomputable def process_airport (airport : String) (runway_data : List Runway)
    (wind_data : Option WindData) (choice : Fin 6) (rwy_files : List (List String)) :
    Option (List (List String)) :=
  match wind_data with
  | none => some rwy_files
  | some wd =>
    match select_runway airport runway_data (some wd) choice with
    | none => none
    | some (sel, message, _) =>
      some (rwy_files.map (fun f =>
        match sel with
        | .multiple rs =>
          if airport == "ENGM" then update_engm_runways f rs (mode_of_message message)
          else update_rwy_file f airport (pyStrOfList rs)
        | .single o => update_rwy_file f airport (pyStrOpt o)))

/-! ### Formalisations of claim-side selection rules (from the spec's words) -/

/-- All headings of the catalog as `(designator, headwind, crosswind)` in
encounter order: catalog order, first designator before the second. -/
noncomputable def claimHeadings (rd : List Runway) (d s : Int) : List (String × ℝ × ℝ) :=
  rd.flatMap (fun r =>
    [(r.rwy1, (calculate_wind_components r.hdg1 d s).1, (calculate_wind_components r.hdg1 d s).2),
     (r.rwy2, (calculate_wind_components r.hdg2 d s).1,
       (calculate_wind_components r.hdg2 d s).2)])

/-- Claim C2's rule, as stated: among eligible headings (crosswind ≤ 25)
across all runways, the strictly greatest headwind wins, first encountered
heading winning ties. -/
noncomputable def claimEligibleBest (rd : List Runway) (d s : Int) : Option String :=
  ((claimHeadings rd d s).foldl
    (fun best c => if c.2.2 ≤ 25 ∧ beats best c.2.1 then some (c.1, c.2.1) else best)
    none).map Prod.fst

/-- The heading of a runway that the source actually considers: the one with
the strictly better headwind, the second heading on ties. -/
noncomputable def runwayCandidate (d s : Int) (r : Runway) : String × ℝ × ℝ :=
  if (calculate_wind_components r.hdg2 d s).1 < (calculate_wind_components r.hdg1 d s).1 then
    (r.rwy1, (calculate_wind_components r.hdg1 d s).1, (calculate_wind_components r.hdg1 d s).2)
  else
    (r.rwy2, (calculate_wind_components r.hdg2 d s).1, (calculate_wind_components r.hdg2 d s).2)

/-- Update of the amended selection rule: an eligible candidate with strictly
greater headwind replaces the best so far. -/
noncomputable def candidate_upd (best : Option (String × ℝ)) (c : String × ℝ × ℝ) :
    Option (String × ℝ) :=
  if c.2.2 ≤ 25 ∧ beats best c.2.1 then some (c.1, c.2.1) else best

/-- Amended C2 rule: among the per-runway candidate headings that are
eligible, the strictly greatest headwind wins, earlier runways winning ties. -/
noncomputable def amendedSelect (rd : List Runway) (d s : Int) : Option (String × ℝ) :=
  (rd.map (runwayCandidate d s)).foldl candidate_upd none

/-- All headings of the catalog as `(designator, crosswind)` in encounter order. -/
noncomputable def headingsXw (rd : List Runway) (d s : Int) : List (String × ℝ) :=
  rd.flatMap (fun r =>
    [(r.rwy1, (calculate_wind_components r.hdg1 d s).2),
     (r.rwy2, (calculate_wind_components r.hdg2 d s).2)])

/-- Stripped numeric value of a designator (0 for non-numeric text, which the
hypotheses of the relevant theorems exclude). -/
def stripValD (dsg : String) : Int :=
  (pyInt? (rstripLRC dsg)).getD 0

/-- Lowest stripped numeric value across all designators of the catalog. -/
def lowestStrip (rd : List Runway) : Int :=
  (minList (rd.map (fun r => min (stripValD r.rwy1) (stripValD r.rwy2)))).getD 0

/-- Claim C6's rule, as stated: the first designator in catalog order whose
stripped value is the lowest. -/
def claimVrbChoice (rd : List Runway) : Option String :=
  (rd.flatMap (fun r => [r.rwy1, r.rwy2])).find? (fun dsg => stripValD dsg == lowestStrip rd)

/-- Amended C6 rule: the **last** runway in catalog order holding the lowest
stripped value decides, its first designator preferred when both match. -/
def amendedVrbChoice (rd : List Runway) : Option String :=
  (rd.reverse.find? (fun r =>
      stripValD r.rwy1 == lowestStrip rd || stripValD r.rwy2 == lowestStrip rd)).map
    (fun r => if stripValD r.rwy1 == lowestStrip rd then r.rwy1 else r.rwy2)

/-- Does a runway hold a designator whose parsed stripped value is `lo`? -/
def pickMatch (lo : Int) (r : Runway) : Bool :=
  (pyInt? (rstripLRC r.rwy1) == some lo) || (pyInt? (rstripLRC r.rwy2) == some lo)

/-- The designator the matching loop keeps for a matching runway: the first
one when it matches, else the second. -/
def pickSel (lo : Int) (r : Runway) : String :=
  if pyInt? (rstripLRC r.rwy1) == some lo then r.rwy1 else r.rwy2

/-- The designator string `main` hands to `update_rwy_file` for a selection. -/
def selectionText (sel : Selection) : String :=
  match sel with
  | .single o => pyStrOpt o
  | .multiple rs => pyStrOfList rs

/-! ### Concrete fixtures used in counterexamples and witnesses -/

/-- A single strip `18`/`36` with exactly opposite headings. -/
def rd0 : List Runway := [⟨"18", "36", 177, 357, "ENXX"⟩]

/-- A catalog whose two headings are not opposite, giving a unique minimum
crosswind (used for the fallback claim). -/
def rd5 : List Runway := [⟨"09", "04", 90, 45, "ENYY"⟩]

/-- Two parallel strips: stripped values tie at 18. -/
def rd6 : List Runway :=
  [⟨"18L", "36R", 180, 360, "ENWW"⟩, ⟨"18C", "36C", 180, 360, "ENWW"⟩]

/-- ENZV's two strips: 18/36 at 177°/357° and 10/28 at 100°/280°. -/
def enzvRd : List Runway :=
  [⟨"18", "36", 177, 357, "ENZV"⟩, ⟨"10", "28", 100, 280, "ENZV"⟩]

/-- ENGM's parallel strips (contents irrelevant to the interactive path). -/
def engmRunways : List Runway :=
  [⟨"01L", "19R", 13, 193, "ENGM"⟩, ⟨"01R", "19L", 13, 193, "ENGM"⟩]

/-- A directional observation 222° at 25 kt for ENZV. -/
def wd222 : WindData := ⟨.deg 222, 25, "ENZV 22225KT"⟩

/-! ## Helper lemmas -/

lemma isPrefixOf_append_self : ∀ (l t : List Char), l.isPrefixOf (l ++ t) = true := by
  intro l t
  induction l with
  | nil => simp [List.isPrefixOf]
  | cons a l ih => simp [List.isPrefixOf, ih]

lemma pyStartsWith_key (a r tail : String) :
    pyStartsWith ("ACTIVE_RUNWAY:" ++ a ++ ":" ++ r ++ tail) ("ACTIVE_RUNWAY:" ++ a ++ ":")
      = true := by
  have h : ("ACTIVE_RUNWAY:" ++ a ++ ":" ++ r ++ tail).data
      = ("ACTIVE_RUNWAY:" ++ a ++ ":").data ++ (r ++ tail).data := by
    simp [String.data_append, List.append_assoc]
  simp [pyStartsWith, h, isPrefixOf_append_self]

/-! ## C10 -/

/-- C10: `update_rwy_file` leaves every line not keyed to the airport
unchanged and in its original order, and afterwards the records keyed to the
airport are exactly the departure (flag 1) and arrival (flag 0) records for
the selected designator — no stale duplicates remain. -/
theorem C10_store_update (lines : List String) (airport runway : String) :
    (update_rwy_file lines airport runway).filter
        (fun l => ! pyStartsWith l ("ACTIVE_RUNWAY:" ++ airport ++ ":"))
      = lines.filter (fun l => ! pyStartsWith l ("ACTIVE_RUNWAY:" ++ airport ++ ":"))
    ∧ (update_rwy_file lines airport runway).filter
        (fun l => pyStartsWith l ("ACTIVE_RUNWAY:" ++ airport ++ ":"))
      = ["ACTIVE_RUNWAY:" ++ airport ++ ":" ++ runway ++ ":1",
         "ACTIVE_RUNWAY:" ++ airport ++ ":" ++ runway ++ ":0"] := by
  constructor
  · simp [update_rwy_file, List.filter_append, List.filter_filter, pyStartsWith_key]
  · simp [update_rwy_file, List.filter_append, List.filter_filter, pyStartsWith_key,
      List.filter_eq_nil_iff]

/-! ## C4 -/

/-- C4 counterexample: for the known, non-ignored, cataloged airport ENBR with
zero observations, the orchestrator leaves every store untouched — the
no-observation branch of the policy is never invoked and nothing is
committed, contradicting the claim. -/
theorem C4_counterexample :
    process_airport "ENBR" [⟨"17", "35", 170, 350, "ENBR"⟩] none 0 [["FOO:bar"]]
      = some [["FOO:bar"]]
    ∧ "ACTIVE_RUNWAY:ENBR:17:1" ∉ ["FOO:bar"] := by
  exact ⟨rfl, by decide⟩

/-- C4 (amended): with zero observations for an airport the orchestrator skips
it — every target store is returned unchanged and no Selection is committed. -/
theorem C4_no_observation_skip (airport : String) (rd : List Runway) (choice : Fin 6)
    (files : List (List String)) :
    process_airport airport rd none choice files = some files := rfl

/-! ## C1 -/

/-- C1: for ENGM with a Variable observation (speed 5, no freezing-fog marker)
and operator choice "3" (19 SPO), the store ends up with `ENGM_ARR:19L` and
`ENGM_DEP:19L` — the Single-runway branch is taken because `main` recovers the
mode by searching the message for "Segregated" while the message spells
"SPO" — and not with the `ENGM_ARR:19R` / `ENGM_DEP:19L` pair the claim (and
the source's own menu text and comments) prescribe. -/
theorem C1_spo_choice_store_bug :
    process_airport "ENGM" engmRunways (some ⟨WindDir.vrb, 5, "ENGM VRB05KT"⟩) 2
        [["ENGM_ARR:01L", "ENGM_DEP:01L"]]
      = some [["ENGM_ARR:19L", "ENGM_DEP:19L"]]
    ∧ process_airport "ENGM" engmRunways (some ⟨WindDir.vrb, 5, "ENGM VRB05KT"⟩) 2
        [["ENGM_ARR:01L", "ENGM_DEP:01L"]]
      ≠ some [["ENGM_ARR:19R", "ENGM_DEP:19L"]] := by
  constructor
  · decide
  · decide

/-! ## C7 -/

lemma windAt_nil : windAt [] = none := rfl

lemma searchWind_eq_none_iff (cs : List Char) :
    searchWind cs = none ↔ ∀ i : Nat, windAt (cs.drop i) = none := by
  induction cs with
  | nil =>
    simp [searchWind, List.drop_nil, windAt_nil]
  | cons c t ih =>
    cases hw : windAt (c :: t) with
    | some g =>
      constructor
      · intro h
        rw [searchWind, hw] at h
        exact absurd h (by simp)
      · intro h
        have h0 := h 0
        rw [List.drop_zero] at h0
        rw [hw] at h0
        exact absurd h0 (by simp)
    | none =>
      rw [searchWind, hw, ih]
      constructor
      · intro h i
        cases i with
        | zero => rw [List.drop_zero]; exact hw
        | succ n => rw [List.drop_succ_cons]; exact h n
      · intro h i
        have := h (i + 1)
        rwa [List.drop_succ_cons] at this

lemma searchWind_eq_some (cs : List Char) :
    ∀ (i : Nat) (g : WindGroup), windAt (cs.drop i) = some g →
      (∀ j, j < i → windAt (cs.drop j) = none) → searchWind cs = some g := by
  induction cs with
  | nil =>
    intro i g h _
    rw [List.drop_nil, windAt_nil] at h
    exact absurd h (by simp)
  | cons c t ih =>
    intro i g h hj
    cases i with
    | zero =>
      rw [List.drop_zero] at h
      rw [searchWind, h]
    | succ n =>
      have h0 := hj 0 (Nat.succ_pos n)
      rw [List.drop_zero] at h0
      rw [searchWind, h0]
      rw [List.drop_succ_cons] at h
      refine ih n g h ?_
      intro j hjn
      have := hj (j + 1) (Nat.succ_lt_succ hjn)
      rwa [List.drop_succ_cons] at this

lemma raw_of_windDataOfGroup (g : WindGroup) (s : String) :
    (windDataOfGroup g s).raw_metar = s := by
  cases g <;> rfl

/-- C7: `parse_metar` returns `None` exactly when no position of the text
matches the wind-group pattern; any successful parse retains the raw report
text unmodified; and the result is built (Variable for a `VRB` group,
Directional otherwise, via `windDataOfGroup`) from the leftmost match. -/
theorem C7_parser_spec (s : String) :
    (parse_metar s = none ↔ ∀ i : Nat, windAt (s.data.drop i) = none)
    ∧ (∀ w, parse_metar s = some w → w.raw_metar = s)
    ∧ (∀ (i : Nat) (g : WindGroup), windAt (s.data.drop i) = some g →
        (∀ j, j < i → windAt (s.data.drop j) = none) →
        parse_metar s = some (windDataOfGroup g s)) := by
  refine ⟨?_, ?_, ?_⟩
  · cases hd : s.data with
    | nil =>
      simp [parse_metar, hd, windAt_nil]
    | cons c t =>
      rw [parse_metar, hd]
      simp only [List.isEmpty_cons, if_false, Bool.false_eq_true, Option.map_eq_none',
        reduceIte]
      exact searchWind_eq_none_iff (c :: t)
  · intro w hw
    rw [parse_metar] at hw
    by_cases he : s.data.isEmpty
    · rw [if_pos he] at hw
      exact absurd hw (by simp)
    · rw [if_neg he] at hw
      obtain ⟨g, _, hg⟩ := Option.map_eq_some'.mp hw
      rw [← hg]
      exact raw_of_windDataOfGroup g s
  · intro i g hg hj
    have hne : s.data ≠ [] := by
      intro h
      rw [h, List.drop_nil, windAt_nil] at hg
      exact absurd hg (by simp)
    rw [parse_metar, if_neg (by simpa using hne), searchWind_eq_some s.data i g hg hj]
    rfl

/-- C7 witness: the pattern matches "27015KT" at position 0, and the parser
indeed returns the Directional observation 270° at 15 kt with the raw text. -/
theorem C7_witness :
    parse_metar "27015KT" = some ⟨WindDir.deg 270, 15, "27015KT"⟩ := by
  have h := (C7_parser_spec "27015KT").2.2 0 (WindGroup.dir 270 15) (by decide)
    (fun j hj => absurd hj (Nat.not_lt_zero j))
  exact h

/-! ## C8 -/

/-- C8: the component calculator returns `speed·cos(d−h)` and
`|speed·sin(d−h)|` with the degree difference converted to radians; the
crosswind is nonnegative for all inputs, and exact alignment `d = h` yields
headwind `speed` and crosswind 0. -/
theorem C8_wind_components (h d s : Int) :
    calculate_wind_components h d s
      = ((s : ℝ) * Real.cos (radians ((d : ℝ) - (h : ℝ))),
          |(s : ℝ) * Real.sin (radians ((d : ℝ) - (h : ℝ)))|)
    ∧ 0 ≤ (calculate_wind_components h d s).2
    ∧ calculate_wind_components h h s = ((s : ℝ), 0) := by
  have hang : ∀ a b : ℝ, radians a - radians b = radians (a - b) := by
    intro a b
    simp [radians]
    ring
  refine ⟨?_, ?_, ?_⟩
  · rw [calculate_wind_components, hang]
  · rw [calculate_wind_components]
    exact abs_nonneg _
  · rw [calculate_wind_components, hang]
    simp [radians]

/-! ## C2 -/

lemma calc_speed_zero (h d : Int) : calculate_wind_components h d 0 = (0, 0) := by
  simp [calculate_wind_components]

/-- C2 counterexample: on a single 18/36 strip with a calm (speed 0)
directional observation every heading is eligible and all headwinds tie, so
the claim's "first satisfying heading wins" rule picks "18", but the code
returns "36": the per-runway comparison `hdg1_hw > hdg2_hw` is strict, so a
tie hands the runway's slot to the second heading. -/
theorem C2_counterexample :
    (select_directional rd0 0 0).1 = some "36"
    ∧ claimEligibleBest rd0 0 0 = some "18"
    ∧ ∃ c ∈ claimHeadings rd0 0 0, c.2.2 ≤ 25 := by
  refine ⟨?_, ?_, ?_⟩
  · have hstep : directional_step 0 0 none ⟨"18", "36", 177, 357, "ENXX"⟩
        = some ("36", 0) := by
      rw [directional_step]
      simp [calc_speed_zero, beats]
    rw [select_directional]
    simp [rd0, hstep]
  · rw [claimEligibleBest, claimHeadings]
    simp [rd0, calc_speed_zero, beats]
  · refine ⟨("18", 0, 0), ?_, by norm_num⟩
    rw [claimHeadings]
    simp [rd0, calc_speed_zero]

lemma directional_step_eq_candidate (d s : Int) (best : Option (String × ℝ)) (r : Runway) :
    directional_step d s best r = candidate_upd best (runwayCandidate d s r) := by
  rw [directional_step, runwayCandidate, candidate_upd]
  by_cases hmin : 25 < min (calculate_wind_components r.hdg1 d s).2
      (calculate_wind_components r.hdg2 d s).2
  · obtain ⟨h1, h2⟩ := lt_min_iff.mp hmin
    rw [if_pos hmin]
    by_cases hhw : (calculate_wind_components r.hdg2 d s).1
        < (calculate_wind_components r.hdg1 d s).1
    · rw [if_pos hhw]
      rw [if_neg]
      intro hc
      exact absurd hc.1 (not_le.mpr h1)
    · rw [if_neg hhw]
      rw [if_neg]
      intro hc
      exact absurd hc.1 (not_le.mpr h2)
  · rw [if_neg hmin]
    by_cases hhw : (calculate_wind_components r.hdg2 d s).1
        < (calculate_wind_components r.hdg1 d s).1
    · rw [if_pos hhw, if_pos hhw]
      by_cases hb : beats best (calculate_wind_components r.hdg1 d s).1
          ∧ (calculate_wind_components r.hdg1 d s).2 ≤ 25
      · rw [if_pos hb, if_pos ⟨hb.2, hb.1⟩]
      · rw [if_neg hb, if_neg (fun hc => hb ⟨hc.2, hc.1⟩)]
    · rw [if_neg hhw, if_neg hhw]
      by_cases hb : beats best (calculate_wind_components r.hdg2 d s).1
          ∧ (calculate_wind_components r.hdg2 d s).2 ≤ 25
      · rw [if_pos hb, if_pos ⟨hb.2, hb.1⟩]
      · rw [if_neg hb, if_neg (fun hc => hb ⟨hc.2, hc.1⟩)]

lemma loop1_eq_amendedSelect (rd : List Runway) (d s : Int) :
    rd.foldl (directional_step d s) none = amendedSelect rd d s := by
  rw [amendedSelect, List.foldl_map]
  have h : directional_step d s
      = fun acc r => candidate_upd acc (runwayCandidate d s r) := by
    funext acc r
    exact directional_step_eq_candidate d s acc r
  rw [h]

/-- C2 (amended): each runway contributes only its better-headwind heading
(the second heading when the headwinds tie); among these per-runway
candidates, one that is eligible (crosswind ≤ 25) and has strictly greater
headwind than the best so far replaces it, so earlier runways win ties.
Whenever this amended rule selects a (non-empty) designator, the code's
directional selection returns exactly it, quietly (rationale not surfaced). -/
theorem C2_directional_selection_amended (rd : List Runway) (d s : Int) (rw : String)
    (hw : ℝ) (hsel : amendedSelect rd d s = some (rw, hw)) (hne : rw ≠ "") :
    select_directional rd d s = (some rw, false) := by
  rw [select_directional, loop1_eq_amendedSelect, hsel]
  simp [hne]

/-- C2 witness: on the calm-tie fixture the amended rule selects "36" and the
code agrees. -/
theorem C2_amended_witness : select_directional rd0 0 0 = (some "36", false) := by
  refine C2_directional_selection_amended rd0 0 0 "36" 0 ?_ (by decide)
  rw [amendedSelect]
  simp [rd0, runwayCandidate, candidate_upd, calc_speed_zero, beats]

/-! ## C9 -/

lemma fallback_upd_isSome (p : String × ℝ) (q : String × ℝ) :
    ∃ z, fallback_upd (some q) p = some z := by
  rw [fallback_upd]
  by_cases h : ltMin (some q) p.2
  · exact ⟨p, if_pos h⟩
  · exact ⟨q, if_neg h⟩

lemma fallback_fold_isSome_of_isSome (d s : Int) (l : List Runway) :
    ∀ (q : String × ℝ), ∃ z, l.foldl (fallback_step d s) (some q) = some z := by
  induction l with
  | nil => intro q; exact ⟨q, rfl⟩
  | cons r t ih =>
    intro q
    rw [List.foldl_cons]
    obtain ⟨z1, hz1⟩ := fallback_upd_isSome
      (r.rwy1, (calculate_wind_components r.hdg1 d s).2) q
    obtain ⟨z2, hz2⟩ := fallback_upd_isSome
      (r.rwy2, (calculate_wind_components r.hdg2 d s).2) z1
    rw [fallback_step, hz1, hz2]
    exact ih z2

lemma fallback_fold_some (d s : Int) (rd : List Runway) (hne : rd ≠ []) :
    ∃ z, rd.foldl (fallback_step d s) none = some z := by
  cases rd with
  | nil => exact absurd rfl hne
  | cons r t =>
    rw [List.foldl_cons, fallback_step]
    have h1 : fallback_upd none (r.rwy1, (calculate_wind_components r.hdg1 d s).2)
        = some (r.rwy1, (calculate_wind_components r.hdg1 d s).2) :=
      if_pos trivial
    rw [h1]
    obtain ⟨z2, hz2⟩ := fallback_upd_isSome
      (r.rwy2, (calculate_wind_components r.hdg2 d s).2)
      (r.rwy1, (calculate_wind_components r.hdg1 d s).2)
    rw [hz2]
    exact fallback_fold_isSome_of_isSome d s t z2

lemma fallbackResult_some (rd : List Runway) (d s : Int) (hne : rd ≠ []) :
    ∃ rw, fallbackResult rd d s = (some rw, true) := by
  obtain ⟨z, hz⟩ := fallback_fold_some d s rd hne
  exact ⟨z.1, by rw [fallbackResult, hz]⟩

lemma select_directional_isSome (rd : List Runway) (d s : Int) (hne : rd ≠ []) :
    ∃ rw b, select_directional rd d s = (some rw, b) := by
  cases hl : rd.foldl (directional_step d s) none with
  | none =>
    obtain ⟨rw, hrw⟩ := fallbackResult_some rd d s hne
    refine ⟨rw, true, ?_⟩
    rw [select_directional, hl]
    exact hrw
  | some p =>
    by_cases hp : p.1 = ""
    · obtain ⟨rw, hrw⟩ := fallbackResult_some rd d s hne
      refine ⟨rw, true, ?_⟩
      rw [select_directional, hl]
      show (if p.1 = "" then fallbackResult rd d s else (some p.1, false)) = (some rw, true)
      rw [if_pos hp]
      exact hrw
    · refine ⟨p.1, false, ?_⟩
      rw [select_directional, hl]
      show (if p.1 = "" then fallbackResult rd d s else (some p.1, false)) = (some p.1, false)
      rw [if_neg hp]

/-- C9: with a non-empty catalog, any integer direction (also outside
[0,360)) and any integer speed (also negative), `select_runway` completes and
returns a result whose selection is a real designator (never Python `None`,
never a crash). -/
theorem C9_no_crash (airport : String) (rd : List Runway) (d s : Int) (raw : String)
    (choice : Fin 6) (hne : rd ≠ []) :
    ∃ sel msg flag,
      select_runway airport rd (some ⟨WindDir.deg d, s, raw⟩) choice = some (sel, msg, flag)
      ∧ sel ≠ Selection.single none := by
  rw [select_runway]
  by_cases hb :
      (airport == "ENGM" && (isVrb (WindDir.deg d) || containsSub "FZFG" raw)) = true
  · rw [if_pos hb]
    exact ⟨.multiple (get_engm_config choice).1, _, true, rfl, by simp⟩
  · rw [if_neg hb]
    obtain ⟨rw, b, hsel⟩ := select_directional_isSome rd d s hne
    refine ⟨.single (select_directional rd d s).1,
      "Selected runway " ++ pyStrOpt (select_directional rd d s).1 ++ " based on wind " ++
        toString d ++ "@" ++ toString s ++ "KT",
      (select_directional rd d s).2, rfl, ?_⟩
    rw [hsel]
    simp

/-- C9 witness at a concrete out-of-range observation (direction 400°,
speed −7) on a one-strip catalog. -/
theorem C9_no_crash_witness :
    ∃ sel msg flag,
      select_runway "ENQQ" [⟨"18", "36", 177, 357, "ENQQ"⟩]
          (some ⟨WindDir.deg 400, -7, "ENQQ 400M7KT"⟩) 0 = some (sel, msg, flag)
      ∧ sel ≠ Selection.single none :=
  C9_no_crash "ENQQ" [⟨"18", "36", 177, 357, "ENQQ"⟩] 400 (-7) "ENQQ 400M7KT" 0
    (by decide)

/-! ## C5 -/

lemma headingsXw_cons (r : Runway) (t : List Runway) (d s : Int) :
    headingsXw (r :: t) d s
      = (r.rwy1, (calculate_wind_components r.hdg1 d s).2)
        :: (r.rwy2, (calculate_wind_components r.hdg2 d s).2) :: headingsXw t d s := by
  simp [headingsXw]

lemma loop1_none_of_all_gt (d s : Int) :
    ∀ rd : List Runway, (∀ p ∈ headingsXw rd d s, 25 < p.2) →
      rd.foldl (directional_step d s) none = none := by
  intro rd
  induction rd with
  | nil => intro _; rfl
  | cons r t ih =>
    intro hall
    have h1 : 25 < (calculate_wind_components r.hdg1 d s).2 :=
      hall (r.rwy1, (calculate_wind_components r.hdg1 d s).2)
        (by rw [headingsXw_cons]; exact List.mem_cons_self _ _)
    have h2 : 25 < (calculate_wind_components r.hdg2 d s).2 :=
      hall (r.rwy2, (calculate_wind_components r.hdg2 d s).2)
        (by rw [headingsXw_cons]; exact List.mem_cons_of_mem _ (List.mem_cons_self _ _))
    have hstep : directional_step d s none r = none := by
      rw [directional_step, if_pos (lt_min_iff.mpr ⟨h1, h2⟩)]
    rw [List.foldl_cons, hstep]
    refine ih ?_
    intro p hp
    refine hall p ?_
    rw [headingsXw_cons]
    exact List.mem_cons_of_mem _ (List.mem_cons_of_mem _ hp)

lemma fallback_fold_eq_headings (d s : Int) :
    ∀ (rd : List Runway) (acc : Option (String × ℝ)),
      rd.foldl (fallback_step d s) acc = (headingsXw rd d s).foldl fallback_upd acc := by
  intro rd
  induction rd with
  | nil => intro acc; rfl
  | cons r t ih =>
    intro acc
    rw [List.foldl_cons, ih (fallback_step d s acc r), headingsXw_cons, List.foldl_cons,
      List.foldl_cons]
    rfl

lemma foldl_fallback_upd_keep (m : String × ℝ) :
    ∀ l : List (String × ℝ), (∀ p ∈ l, ¬ p.2 < m.2) →
      l.foldl fallback_upd (some m) = some m := by
  intro l
  induction l with
  | nil => intro _; rfl
  | cons p t ih =>
    intro h
    have hstep : fallback_upd (some m) p = some m := by
      rw [fallback_upd, if_neg]
      exact h p (List.mem_cons_self p t)
    rw [List.foldl_cons, hstep]
    exact ih (fun q hq => h q (List.mem_cons_of_mem _ hq))

lemma foldl_fallback_upd_min (m : String × ℝ) :
    ∀ (l : List (String × ℝ)) (acc : Option (String × ℝ)),
      m ∈ l → (∀ p ∈ l, p ≠ m → m.2 < p.2) →
      (∀ q, acc = some q → m.2 < q.2) →
      l.foldl fallback_upd acc = some m := by
  intro l
  induction l with
  | nil =>
    intro acc hm _ _
    exact absurd hm (List.not_mem_nil m)
  | cons p t ih =>
    intro acc hm hlt hacc
    rw [List.foldl_cons]
    by_cases hpm : p = m
    · subst hpm
      have hupd : fallback_upd acc p = some p := by
        rw [fallback_upd, if_pos]
        cases acc with
        | none => trivial
        | some q => exact hacc q rfl
      rw [hupd]
      refine foldl_fallback_upd_keep p t ?_
      intro x hx
      by_cases hxp : x = p
      · subst hxp
        exact lt_irrefl x.2
      · exact lt_asymm (hlt x (List.mem_cons_of_mem _ hx) hxp)
    · have hm' : m ∈ t := by
        cases List.mem_cons.mp hm with
        | inl h => exact absurd h.symm hpm
        | inr h => exact h
      refine ih (fallback_upd acc p) hm'
        (fun x hx hxm => hlt x (List.mem_cons_of_mem _ hx) hxm) ?_
      intro q hq
      rw [fallback_upd] at hq
      by_cases hlm : ltMin acc p.2
      · rw [if_pos hlm] at hq
        injection hq with hq'
        rw [← hq']
        exact hlt p (List.mem_cons_self p t) hpm
      · rw [if_neg hlm] at hq
        exact hacc q hq

/-- C5: with a Directional observation under which every heading's crosswind
exceeds 25 knots, the selection returns the heading with the strictly
smallest crosswind across all runways and headings, and the show-rationale
flag is true. -/
theorem C5_fallback_min_crosswind (rd : List Runway) (d s : Int) (rw : String) (x : ℝ)
    (hall : ∀ p ∈ headingsXw rd d s, 25 < p.2)
    (hmem : (rw, x) ∈ headingsXw rd d s)
    (hmin : ∀ p ∈ headingsXw rd d s, p ≠ (rw, x) → x < p.2) :
    select_directional rd d s = (some rw, true) := by
  have hloop1 : rd.foldl (directional_step d s) none = none := loop1_none_of_all_gt d s rd hall
  have hfold : rd.foldl (fallback_step d s) none = some (rw, x) := by
    rw [fallback_fold_eq_headings]
    exact foldl_fallback_upd_min (rw, x) (headingsXw rd d s) none hmem hmin
      (fun q hq => absurd hq (by simp))
  rw [select_directional, hloop1, fallbackResult, hfold]

lemma angle_e90 : radians ((0 : Int) : ℝ) - radians ((90 : Int) : ℝ) = -(Real.pi / 2) := by
  rw [radians, radians]
  push_cast
  ring

lemma angle_e45 : radians ((0 : Int) : ℝ) - radians ((45 : Int) : ℝ) = -(Real.pi / 4) := by
  rw [radians, radians]
  push_cast
  ring

lemma e90 : calculate_wind_components 90 0 40 = (0, 40) := by
  simp only [calculate_wind_components, angle_e90, Real.cos_neg, Real.cos_pi_div_two,
    Real.sin_neg, Real.sin_pi_div_two]
  norm_num

lemma e45 : calculate_wind_components 45 0 40
    = (40 * (Real.sqrt 2 / 2), 40 * (Real.sqrt 2 / 2)) := by
  simp only [calculate_wind_components, angle_e45, Real.cos_neg, Real.cos_pi_div_four,
    Real.sin_neg, Real.sin_pi_div_four]
  rw [Prod.mk.injEq]
  refine ⟨by push_cast; ring, ?_⟩
  have h : ((40 : Int) : ℝ) * -(Real.sqrt 2 / 2) = -(40 * (Real.sqrt 2 / 2)) := by
    push_cast
    ring
  rw [h, abs_neg, abs_of_nonneg (by positivity)]

lemma headingsXw_rd5 : headingsXw rd5 0 40
    = [("09", (40 : ℝ)), ("04", 40 * (Real.sqrt 2 / 2))] := by
  simp [headingsXw, rd5, e90, e45]

/-- C5 witness: on a catalog whose two headings are 90° and 45° with wind
000° at 40 kt, both crosswinds exceed 25 and the 45° heading ("04") has the
unique minimum, so the code returns it with the rationale surfaced. -/
theorem C5_witness : select_directional rd5 0 40 = (some "04", true) := by
  have hs2 : Real.sqrt 2 * Real.sqrt 2 = 2 := Real.mul_self_sqrt (by norm_num)
  have hs2n : (0 : ℝ) ≤ Real.sqrt 2 := Real.sqrt_nonneg 2
  refine C5_fallback_min_crosswind rd5 0 40 "04" (40 * (Real.sqrt 2 / 2)) ?_ ?_ ?_
  · intro p hp
    rw [headingsXw_rd5] at hp
    cases List.mem_cons.mp hp with
    | inl h => rw [h]; norm_num
    | inr h =>
      have h04 := List.mem_singleton.mp h
      rw [h04]
      show (25 : ℝ) < 40 * (Real.sqrt 2 / 2)
      nlinarith
  · rw [headingsXw_rd5]
    exact List.mem_cons_of_mem _ (List.mem_singleton.mpr rfl)
  · intro p hp hne
    rw [headingsXw_rd5] at hp
    cases List.mem_cons.mp hp with
    | inl h =>
      rw [h]
      show 40 * (Real.sqrt 2 / 2) < (40 : ℝ)
      nlinarith
    | inr h =>
      exact absurd (List.mem_singleton.mp h) hne

/-! ## C6 -/

/-- C6 counterexample: with two strips `18L/36R` and `18C/36C` the stripped
values tie at 18; the claim's catalog-order tie-break picks "18L", but the
matching loop has no break, so the last matching runway overwrites the
selection and the code returns "18C". -/
theorem C6_counterexample :
    select_runway "ENWW" rd6 (some ⟨WindDir.vrb, 5, "ENWW VRB05KT"⟩) 0
      = some (Selection.single (some "18C"),
          "Wind is ENWW VRB05KT, no preferred runway - using runway 18C", true)
    ∧ claimVrbChoice rd6 = some "18L" := by
  exact ⟨by decide, by decide⟩

lemma mapMinVals_eq :
    ∀ rd : List Runway,
      (∀ r ∈ rd, (pyInt? (rstripLRC r.rwy1)).isSome ∧ (pyInt? (rstripLRC r.rwy2)).isSome) →
      mapMinVals rd = some (rd.map (fun r => min (stripValD r.rwy1) (stripValD r.rwy2))) := by
  intro rd
  induction rd with
  | nil => intro _; rfl
  | cons r t ih =>
    intro hp
    obtain ⟨ha', hb'⟩ := hp r (List.mem_cons_self r t)
    obtain ⟨a, ha⟩ := Option.isSome_iff_exists.mp ha'
    obtain ⟨b, hb⟩ := Option.isSome_iff_exists.mp hb'
    have ht := ih (fun x hx => hp x (List.mem_cons_of_mem _ hx))
    have hva : stripValD r.rwy1 = a := by rw [stripValD, ha]; rfl
    have hvb : stripValD r.rwy2 = b := by rw [stripValD, hb]; rfl
    simp [mapMinVals, ha, hb, ht, hva, hvb]

lemma minList_map_eq_lowest (rd : List Runway) (hne : rd ≠ []) :
    minList (rd.map (fun r => min (stripValD r.rwy1) (stripValD r.rwy2)))
      = some (lowestStrip rd) := by
  cases hm : minList (rd.map (fun r => min (stripValD r.rwy1) (stripValD r.rwy2))) with
  | none =>
    cases rd with
    | nil => exact absurd rfl hne
    | cons r t =>
      rw [List.map_cons, minList] at hm
      exact absurd hm (by simp)
  | some lo =>
    rw [lowestStrip, hm]
    rfl

lemma find?_congr_on {α : Type} (l : List α) (q p : α → Bool) (h : ∀ r ∈ l, q r = p r) :
    l.find? q = l.find? p := by
  induction l with
  | nil => rfl
  | cons a t ih =>
    rw [List.find?_cons, List.find?_cons, h a (List.mem_cons_self a t)]
    cases hp : p a with
    | true => rfl
    | false => exact ih (fun r hr => h r (List.mem_cons_of_mem _ hr))

lemma beq_pyInt_strip (x : String) (lo : Int) (h : (pyInt? (rstripLRC x)).isSome) :
    (pyInt? (rstripLRC x) == some lo) = (stripValD x == lo) := by
  obtain ⟨a, ha⟩ := Option.isSome_iff_exists.mp h
  rw [stripValD, ha]
  rfl

lemma vrbPick_fold (lo : Int) :
    ∀ (l : List Runway) (acc : Option String),
      l.foldl (pickStep lo) acc
        = match l.reverse.find? (pickMatch lo) with
          | some r => some (pickSel lo r)
          | none => acc := by
  intro l
  induction l with
  | nil => intro acc; rfl
  | cons r t ih =>
    intro acc
    rw [List.foldl_cons, ih (pickStep lo acc r), List.reverse_cons, List.find?_append]
    cases hf : t.reverse.find? (pickMatch lo) with
    | some r' => simp [hf]
    | none =>
      by_cases h1 : (pyInt? (rstripLRC r.rwy1) == some lo) = true
      · simp [hf, pickStep, pickMatch, pickSel, h1]
      · by_cases h2 : (pyInt? (rstripLRC r.rwy2) == some lo) = true
        · simp [hf, pickStep, pickMatch, pickSel, h1, h2]
        · simp [hf, pickStep, pickMatch, h1, h2]

lemma vrbPick_eq_amendedVrbChoice (rd : List Runway)
    (hpar : ∀ r ∈ rd,
      (pyInt? (rstripLRC r.rwy1)).isSome ∧ (pyInt? (rstripLRC r.rwy2)).isSome) :
    vrbPick rd (lowestStrip rd) = amendedVrbChoice rd := by
  rw [vrbPick, vrbPick_fold (lowestStrip rd) rd none, amendedVrbChoice]
  have hq : rd.reverse.find? (pickMatch (lowestStrip rd))
      = rd.reverse.find? (fun r =>
          stripValD r.rwy1 == lowestStrip rd || stripValD r.rwy2 == lowestStrip rd) := by
    refine find?_congr_on _ _ _ ?_
    intro r hr
    obtain ⟨h1, h2⟩ := hpar r (List.mem_reverse.mp hr)
    rw [pickMatch, beq_pyInt_strip _ _ h1, beq_pyInt_strip _ _ h2]
  rw [hq]
  cases hf : rd.reverse.find? (fun r =>
      stripValD r.rwy1 == lowestStrip rd || stripValD r.rwy2 == lowestStrip rd) with
  | none => rfl
  | some r =>
    obtain ⟨h1, _⟩ := hpar r (List.mem_reverse.mp (List.mem_of_find?_eq_some hf))
    simp [pickSel, beq_pyInt_strip _ _ h1]

/-- C6 (amended): for a non-hub airport with a Variable observation and no
preferred runway, the code selects the lowest stripped designator value, but
ties between runways are broken by the **last** matching runway in catalog
order (each matching runway overwrites the previous selection; within a
runway the first designator is preferred); the show-rationale flag is true. -/
theorem C6_variable_lowest_amended (airport : String) (rd : List Runway) (sp : Int)
    (raw : String) (choice : Fin 6) (sel : String)
    (hne : rd ≠ [])
    (hpar : ∀ r ∈ rd,
      (pyInt? (rstripLRC r.rwy1)).isSome ∧ (pyInt? (rstripLRC r.rwy2)).isSome)
    (hpref : preferredRunway airport = none)
    (hengm : airport ≠ "ENGM")
    (hsel : amendedVrbChoice rd = some sel) :
    select_runway airport rd (some ⟨WindDir.vrb, sp, raw⟩) choice
      = some (Selection.single (some sel),
          "Wind is " ++ raw ++ ", no preferred runway - using runway " ++ sel, true) := by
  have hb : (airport == "ENGM") = false := beq_eq_false_iff_ne.mpr hengm
  have hpick : vrbPick rd (lowestStrip rd) = some sel := by
    rw [vrbPick_eq_amendedVrbChoice rd hpar]
    exact hsel
  simp only [select_runway, hb, Bool.false_and, Bool.false_eq_true, if_false, hpref,
    mapMinVals_eq rd hpar, minList_map_eq_lowest rd hne, hpick]

/-- C6 witness: the amended rule and the code agree on the tie fixture,
returning "18C" from the last matching runway. -/
theorem C6_amended_witness :
    select_runway "ENWW" rd6 (some ⟨WindDir.vrb, 5, "ENWW VRB05KT"⟩) 0
      = some (Selection.single (some "18C"),
          "Wind is ENWW VRB05KT, no preferred runway - using runway 18C", true) :=
  C6_variable_lowest_amended "ENWW" rd6 5 "ENWW VRB05KT" 0 "18C" (by decide) (by decide)
    (by decide) (by decide) (by decide)

/-! ## C3 -/

lemma angle_222_177 :
    radians ((222 : Int) : ℝ) - radians ((177 : Int) : ℝ) = Real.pi / 4 := by
  rw [radians, radians]
  push_cast
  ring

lemma angle_222_357 :
    radians ((222 : Int) : ℝ) - radians ((357 : Int) : ℝ) = -(Real.pi - Real.pi / 4) := by
  rw [radians, radians]
  push_cast
  ring

lemma angle_222_100 :
    radians ((222 : Int) : ℝ) - radians ((100 : Int) : ℝ) = Real.pi - 29 * Real.pi / 90 := by
  rw [radians, radians]
  push_cast
  ring

lemma angle_222_280 :
    radians ((222 : Int) : ℝ) - radians ((280 : Int) : ℝ) = -(29 * Real.pi / 90) := by
  rw [radians, radians]
  push_cast
  ring

lemma e177full : calculate_wind_components 177 222 25
    = (25 * (Real.sqrt 2 / 2), 25 * (Real.sqrt 2 / 2)) := by
  simp only [calculate_wind_components, angle_222_177, Real.cos_pi_div_four,
    Real.sin_pi_div_four]
  rw [Prod.mk.injEq]
  refine ⟨by push_cast; ring, ?_⟩
  have h : ((25 : Int) : ℝ) * (Real.sqrt 2 / 2) = 25 * (Real.sqrt 2 / 2) := by
    push_cast
    ring
  rw [h, abs_of_nonneg (by positivity)]

lemma e357full : calculate_wind_components 357 222 25
    = (-(25 * (Real.sqrt 2 / 2)), 25 * (Real.sqrt 2 / 2)) := by
  simp only [calculate_wind_components, angle_222_357, Real.cos_neg, Real.sin_neg,
    Real.cos_pi_sub, Real.sin_pi_sub, Real.cos_pi_div_four, Real.sin_pi_div_four]
  rw [Prod.mk.injEq]
  refine ⟨by push_cast; ring, ?_⟩
  have h : ((25 : Int) : ℝ) * -(Real.sqrt 2 / 2) = -(25 * (Real.sqrt 2 / 2)) := by
    push_cast
    ring
  rw [h, abs_neg, abs_of_nonneg (by positivity)]

lemma s29_nonneg : 0 ≤ Real.sin (29 * Real.pi / 90) :=
  Real.sin_nonneg_of_nonneg_of_le_pi (by positivity) (by nlinarith [Real.pi_pos])

lemma e100full : calculate_wind_components 100 222 25
    = (-(25 * Real.cos (29 * Real.pi / 90)), 25 * Real.sin (29 * Real.pi / 90)) := by
  simp only [calculate_wind_components, angle_222_100, Real.cos_pi_sub, Real.sin_pi_sub]
  rw [Prod.mk.injEq]
  refine ⟨by push_cast; ring, ?_⟩
  have h : ((25 : Int) : ℝ) * Real.sin (29 * Real.pi / 90)
      = 25 * Real.sin (29 * Real.pi / 90) := by
    push_cast
    ring
  rw [h, abs_of_nonneg (by nlinarith [s29_nonneg])]

lemma e280full : calculate_wind_components 280 222 25
    = (25 * Real.cos (29 * Real.pi / 90), 25 * Real.sin (29 * Real.pi / 90)) := by
  simp only [calculate_wind_components, angle_222_280, Real.cos_neg, Real.sin_neg]
  rw [Prod.mk.injEq]
  refine ⟨by push_cast; ring, ?_⟩
  have h : ((25 : Int) : ℝ) * -Real.sin (29 * Real.pi / 90)
      = -(25 * Real.sin (29 * Real.pi / 90)) := by
    push_cast
    ring
  rw [h, abs_neg, abs_of_nonneg (by nlinarith [s29_nonneg])]

lemma A_le_25 : 25 * (Real.sqrt 2 / 2) ≤ 25 := by
  have hs2 : Real.sqrt 2 * Real.sqrt 2 = 2 := Real.mul_self_sqrt (by norm_num)
  have hs2n : (0 : ℝ) ≤ Real.sqrt 2 := Real.sqrt_nonneg 2
  nlinarith

lemma A_gt_15 : (15 : ℝ) < 25 * (Real.sqrt 2 / 2) := by
  have hs2 : Real.sqrt 2 * Real.sqrt 2 = 2 := Real.mul_self_sqrt (by norm_num)
  have hs2n : (0 : ℝ) ≤ Real.sqrt 2 := Real.sqrt_nonneg 2
  nlinarith

lemma negA_lt_A : -(25 * (Real.sqrt 2 / 2)) < 25 * (Real.sqrt 2 / 2) := by
  have h : (0 : ℝ) < Real.sqrt 2 := Real.sqrt_pos.mpr (by norm_num)
  nlinarith

lemma c29_pos : 0 < Real.cos (29 * Real.pi / 90) := by
  refine Real.cos_pos_of_mem_Ioo ⟨?_, ?_⟩
  · nlinarith [Real.pi_pos]
  · nlinarith [Real.pi_pos]

lemma xw28_le : 25 * Real.sin (29 * Real.pi / 90) ≤ 25 := by
  have h := Real.sin_le_one (29 * Real.pi / 90)
  nlinarith

lemma hw28_lt_A : 25 * Real.cos (29 * Real.pi / 90) < 25 * (Real.sqrt 2 / 2) := by
  have h1 : (0 : ℝ) ≤ Real.pi / 4 := by positivity
  have h2 : 29 * Real.pi / 90 ≤ Real.pi := by nlinarith [Real.pi_pos]
  have h3 : Real.pi / 4 < 29 * Real.pi / 90 := by nlinarith [Real.pi_pos]
  have h := Real.cos_lt_cos_of_nonneg_of_le_pi h1 h2 h3
  rw [Real.cos_pi_div_four] at h
  nlinarith

lemma enzv_step1 : directional_step 222 25 none ⟨"18", "36", 177, 357, "ENZV"⟩
    = some ("18", 25 * (Real.sqrt 2 / 2)) := by
  simp only [directional_step, e177full, e357full]
  rw [min_self, if_neg (not_lt.mpr A_le_25), if_pos negA_lt_A,
    if_pos (show beats none (25 * (Real.sqrt 2 / 2)) ∧ 25 * (Real.sqrt 2 / 2) ≤ 25 from
      ⟨trivial, A_le_25⟩)]

lemma enzv_step2 :
    directional_step 222 25 (some ("18", 25 * (Real.sqrt 2 / 2))) ⟨"10", "28", 100, 280, "ENZV"⟩
      = some ("18", 25 * (Real.sqrt 2 / 2)) := by
  simp only [directional_step, e100full, e280full]
  rw [min_self, if_neg (not_lt.mpr xw28_le), if_neg, if_neg]
  · intro hc
    exact absurd hc.1 (not_lt.mpr (le_of_lt hw28_lt_A))
  · exact not_lt.mpr (by nlinarith [c29_pos])

lemma enzv_directional : select_directional enzvRd 222 25 = (some "18", false) := by
  have hfold : enzvRd.foldl (directional_step 222 25) none
      = some ("18", 25 * (Real.sqrt 2 / 2)) := by
    simp only [enzvRd, List.foldl_cons, List.foldl_nil, enzv_step1, enzv_step2]
  rw [select_directional, hfold]
  show (if ("18" : String) = "" then fallbackResult enzvRd 222 25 else (some "18", false))
    = (some "18", false)
  rw [if_neg (by decide)]

/-- C3 counterexample: for ENZV with wind 222° at 25 kt the orchestrator
commits runway 18 (the general 25-knot policy's choice: the 18 heading is
eligible at ≈17.7 kt crosswind and has the best headwind), while the
airport-specific `select_runway_enzv` — which `main` never calls — would
return 28 (crosswind on 18 exceeds its 15-knot threshold, redirecting to the
10/28 family).  The special path therefore does not determine ENZV's
selection. -/
theorem C3_counterexample :
    process_airport "ENZV" enzvRd (some wd222) 0 [[]]
      = some [["ACTIVE_RUNWAY:ENZV:18:1", "ACTIVE_RUNWAY:ENZV:18:0"]]
    ∧ select_runway_enzv (some wd222) = some "28" := by
  constructor
  · have hb : (("ENZV" : String) == "ENGM") = false := by decide
    have hsel : select_runway "ENZV" enzvRd (some wd222) 0
        = some (Selection.single (some "18"),
            "Selected runway " ++ pyStrOpt (some "18") ++ " based on wind " ++
              toString (222 : Int) ++ "@" ++ toString (25 : Int) ++ "KT", false) := by
      simp only [select_runway, wd222, hb, Bool.false_and, Bool.false_eq_true, if_false,
        enzv_directional]
    simp only [process_airport, hsel]
    decide
  · simp only [select_runway_enzv, wd222, e177full, e357full, e100full, e280full]
    rw [if_pos negA_lt_A]
    rw [if_pos rfl, if_pos A_gt_15, if_neg]
    exact not_lt.mpr (by nlinarith [c29_pos])

/-- C3 (amended): the 15-knot 18/36-vs-10/28 rule exists in
`select_runway_enzv` exactly as described, but that function is dead code —
the orchestrator handles ENZV exactly like any other non-hub airport,
committing to every store the general policy's single-designator selection. -/
theorem C3_enzv_amended (rd : List Runway) (wd : WindData) (choice : Fin 6)
    (files : List (List String)) :
    process_airport "ENZV" rd (some wd) choice files
      = (select_runway "ENZV" rd (some wd) choice).map
          (fun r => files.map (fun f => update_rwy_file f "ENZV" (selectionText r.1))) := by
  rw [process_airport]
  cases h : select_runway "ENZV" rd (some wd) choice with
  | none => rfl
  | some r =>
    obtain ⟨sel, message, b⟩ := r
    simp only [Option.map_some']
    cases sel with
    | single o => rfl
    | multiple rs =>
      show some (files.map (fun f =>
          if ("ENZV" : String) == "ENGM" then update_engm_runways f rs (mode_of_message message)
          else update_rwy_file f "ENZV" (pyStrOfList rs)))
        = some (files.map (fun f => update_rwy_file f "ENZV" (selectionText (.multiple rs))))
      simp only [selectionText]
      rfl

end RunwaySelector
